import Mathlib

/-!
Verification of the feishubot webhook client: a shallow embedding of the
signature generator (`sign.go`), the message constructors (`message.go`)
and the delivery client (`client.go`), with theorems settling the spec
claims about them.

Machine words are `Nat` reduced modulo `2^32` where the Go code relies on
32-bit wraparound; byte strings are `List Nat` with entries below 256.
-/

namespace FeishuBot

/-! ## SHA-256 (Go `crypto/sha256`, modelled from FIPS 180-4 as the spec
names the algorithm; the repository calls it through `hmac.New(sha256.New, …)`). -/

/-- Rotate a 32-bit word right by `k` bits (for inputs below `2^32`). -/
def rotr32 (k n : Nat) : Nat := ((n >>> k) ||| (n <<< (32 - k))) % 4294967296

/-- Lower-case sigma-0 message-schedule function of SHA-256. -/
def ssig0 (x : Nat) : Nat := rotr32 7 x ^^^ rotr32 18 x ^^^ (x >>> 3)

/-- Lower-case sigma-1 message-schedule function of SHA-256. -/
def ssig1 (x : Nat) : Nat := rotr32 17 x ^^^ rotr32 19 x ^^^ (x >>> 10)

/-- Upper-case Sigma-0 round function of SHA-256. -/
def bsig0 (x : Nat) : Nat := rotr32 2 x ^^^ rotr32 13 x ^^^ rotr32 22 x

/-- Upper-case Sigma-1 round function of SHA-256. -/
def bsig1 (x : Nat) : Nat := rotr32 6 x ^^^ rotr32 11 x ^^^ rotr32 25 x

/-- Choice function of SHA-256: bits of `y` where `x` is set, of `z` elsewhere. -/
def ch (x y z : Nat) : Nat := (x &&& y) ^^^ ((x ^^^ 4294967295) &&& z)

/-- Majority function of SHA-256. -/
def maj (x y z : Nat) : Nat := (x &&& y) ^^^ (x &&& z) ^^^ (y &&& z)

/-- Round constants of SHA-256: the first 32 fractional bits of the cube
roots of the first 64 primes. -/
def k256 : List Nat :=
  [1116352408, 1899447441, 3049323471, 3921009573, 961987163, 1508970993,
   2453635748, 2870763221, 3624381080, 310598401, 607225278, 1426881987,
   1925078388, 2162078206, 2614888103, 3248222580, 3835390401, 4022224774,
   264347078, 604807628, 770255983, 1249150122, 1555081692, 1996064986,
   2554220882, 2821834349, 2952996808, 3210313671, 3336571891, 3584528711,
   113926993, 338241895, 666307205, 773529912, 1294757372, 1396182291,
   1695183700, 1986661051, 2177026350, 2456956037, 2730485921, 2820302411,
   3259730800, 3345764771, 3516065817, 3600352804, 4094571909, 275423344,
   430227734, 506948616, 659060556, 883997877, 958139571, 1322822218,
   1537002063, 1747873779, 1955562222, 2024104815, 2227730452, 2361852424,
   2428436474, 2756734187, 3204031479, 3329325298]

/-- Working state of the compression function: eight 32-bit words. -/
structure Hash8 where
  a : Nat
  b : Nat
  c : Nat
  d : Nat
  e : Nat
  f : Nat
  g : Nat
  h : Nat
deriving Repr, DecidableEq

/-- Initial hash value of SHA-256: the first 32 fractional bits of the
square roots of the first 8 primes. -/
def initH : Hash8 :=
  ⟨1779033703, 3144134277, 1013904242, 2773480762,
   1359893119, 2600822924, 528734635, 1541459225⟩

/-- Group a byte list into 32-bit words, big-endian, four bytes per word. -/
def bytesToWords : List Nat → List Nat
  | b0 :: b1 :: b2 :: b3 :: rest =>
      (b0 * 16777216 + b1 * 65536 + b2 * 256 + b3) :: bytesToWords rest
  | _ => []

/-- Extend a 16-word block by `fuel` further schedule words
(`w[i] = ssig1 w[i-2] + w[i-7] + ssig0 w[i-15] + w[i-16]` modulo `2^32`). -/
def extendSchedule : Nat → List Nat → List Nat
  | 0, ws => ws
  | fuel + 1, ws =>
      let i := ws.length
      let w := (ssig1 (ws.getD (i - 2) 0) + ws.getD (i - 7) 0 +
                ssig0 (ws.getD (i - 15) 0) + ws.getD (i - 16) 0) % 4294967296
      extendSchedule fuel (ws ++ [w])

/-- One round of the SHA-256 compression function, fed one constant and one
schedule word. -/
def roundStep (s : Hash8) (kw : Nat × Nat) : Hash8 :=
  let t1 := (s.h + bsig1 s.e + ch s.e s.f s.g + kw.1 + kw.2) % 4294967296
  let t2 := (bsig0 s.a + maj s.a s.b s.c) % 4294967296
  ⟨(t1 + t2) % 4294967296, s.a, s.b, s.c, (s.d + t1) % 4294967296, s.e, s.f, s.g⟩

/-- Compress one 64-byte block into the running hash state. -/
def compress (s : Hash8) (block : List Nat) : Hash8 :=
  let ws := extendSchedule 48 (bytesToWords block)
  let t := (k256.zip ws).foldl roundStep s
  ⟨(s.a + t.a) % 4294967296, (s.b + t.b) % 4294967296,
   (s.c + t.c) % 4294967296, (s.d + t.d) % 4294967296,
   (s.e + t.e) % 4294967296, (s.f + t.f) % 4294967296,
   (s.g + t.g) % 4294967296, (s.h + t.h) % 4294967296⟩

/-- Serialize the 64-bit big-endian message-length field of the padding. -/
def lenBytes64 (n : Nat) : List Nat :=
  [n / 72057594037927936 % 256, n / 281474976710656 % 256,
   n / 1099511627776 % 256, n / 4294967296 % 256,
   n / 16777216 % 256, n / 65536 % 256, n / 256 % 256, n % 256]

/-- Pad a message to a multiple of 64 bytes: append `0x80`, then zeros,
then the bit length as 8 big-endian bytes. -/
def padMessage (msg : List Nat) : List Nat :=
  msg ++ 128 :: (List.replicate ((55 + 64 - msg.length % 64) % 64) 0 ++
    lenBytes64 (8 * msg.length))

/-- Split a byte list into 64-byte blocks, with enough fuel to consume the
whole list (each step removes at least one byte). -/
def toBlocksAux : Nat → List Nat → List (List Nat)
  | 0, _ => []
  | _, [] => []
  | fuel + 1, bs => bs.take 64 :: toBlocksAux fuel (bs.drop 64)

/-- Split a byte list into 64-byte blocks. -/
def toBlocks (bs : List Nat) : List (List Nat) := toBlocksAux bs.length bs

/-- Serialize one 32-bit word to four big-endian bytes. -/
def wordBytes (n : Nat) : List Nat :=
  [n / 16777216 % 256, n / 65536 % 256, n / 256 % 256, n % 256]

/-- Serialize the eight state words to the 32 digest bytes, big-endian. -/
def digestBytes (s : Hash8) : List Nat :=
  wordBytes s.a ++ wordBytes s.b ++ wordBytes s.c ++ wordBytes s.d ++
  wordBytes s.e ++ wordBytes s.f ++ wordBytes s.g ++ wordBytes s.h

/-- Full SHA-256 digest of a byte list: pad, compress every block, and
serialize the eight state words big-endian. -/
def sha256 (msg : List Nat) : List Nat :=
  digestBytes ((toBlocks (padMessage msg)).foldl compress initH)

/-! ## HMAC (Go `crypto/hmac` with SHA-256, block size 64). -/

/-- Keyed-hash message authentication code over SHA-256: hash the key if it
exceeds one block, zero-pad it to 64 bytes, and apply the nested
inner/outer construction with pads `0x36` and `0x5c`. -/
def hmacSha256 (key msg : List Nat) : List Nat :=
  let k0 := if 64 < key.length then sha256 key else key
  let kp := k0 ++ List.replicate (64 - k0.length) 0
  sha256 ((kp.map fun b => b ^^^ 92) ++ sha256 ((kp.map fun b => b ^^^ 54) ++ msg))

/-! ## Standard Base64 with padding (Go `encoding/base64` `StdEncoding`). -/

/-- Alphabet of standard Base64. -/
def b64Alphabet : List Char :=
  "ABCDEFGHIJKLMNOPQRSTUVWXYZabcdefghijklmnopqrstuvwxyz0123456789+/".toList

/-- Character for a 6-bit group. -/
def b64Char (n : Nat) : Char := b64Alphabet.getD n 'A'

/-- Encode a byte list in standard Base64, three bytes to four characters,
padding a final short group with `=`. -/
def base64EncodeList : List Nat → List Char
  | b1 :: b2 :: b3 :: rest =>
      b64Char (b1 / 4) :: b64Char (b1 % 4 * 16 + b2 / 16) ::
      b64Char (b2 % 16 * 4 + b3 / 64) :: b64Char (b3 % 64) ::
      base64EncodeList rest
  | [b1, b2] => [b64Char (b1 / 4), b64Char (b1 % 4 * 16 + b2 / 16),
                 b64Char (b2 % 16 * 4), '=']
  | [b1] => [b64Char (b1 / 4), b64Char (b1 % 4 * 16), '=', '=']
  | [] => []

/-- Encode a byte list as a standard Base64 string. -/
def base64Encode (bs : List Nat) : String := String.mk (base64EncodeList bs)

/-- Value of a Base64 alphabet character, if any. -/
def b64DecodeChar (c : Char) : Option Nat := b64Alphabet.indexOf? c

/-! ## Byte view of strings (Go `[]byte(s)` is the UTF-8 encoding). -/

/-- Encode one scalar value in UTF-8 (1 to 4 bytes). -/
def utf8Bytes (c : Char) : List Nat :=
  let n := c.toNat
  if n < 128 then [n]
  else if n < 2048 then [192 + n / 64, 128 + n % 64]
  else if n < 65536 then [224 + n / 4096, 128 + n / 64 % 64, 128 + n % 64]
  else [240 + n / 262144, 128 + n / 4096 % 64, 128 + n / 64 % 64, 128 + n % 64]

/-- Byte sequence of a string: UTF-8 encodings of its characters in order. -/
def strBytes (s : String) : List Nat := s.data.flatMap utf8Bytes

/-! ## The signer (`GenSign` in `sign.go`). -/

/-- Signature generator of `sign.go`: key is the decimal timestamp, a
newline and the secret; the HMAC-SHA256 digest of the empty message under
that key is emitted in standard Base64. -/
def genSign (secret : String) (timestamp : Int) : String :=
  let stringToSign := toString timestamp ++ "\n" ++ secret
  base64Encode (hmacSha256 (strBytes stringToSign) [])

/-- Decode a standard Base64 character list: four characters to three
bytes, accepting `=` padding only at the very end. -/
def base64DecodeList : List Char → Option (List Nat)
  | c1 :: c2 :: c3 :: c4 :: rest =>
    match b64DecodeChar c1, b64DecodeChar c2 with
    | some i1, some i2 =>
      if c3 = '=' then
        if c4 = '=' ∧ rest = [] then some [i1 * 4 + i2 / 16] else none
      else
        match b64DecodeChar c3 with
        | some i3 =>
          if c4 = '=' then
            if rest = [] then some [i1 * 4 + i2 / 16, i2 % 16 * 16 + i3 / 4] else none
          else
            match b64DecodeChar c4 with
            | some i4 =>
              match base64DecodeList rest with
              | some bs => some ((i1 * 4 + i2 / 16) :: (i2 % 16 * 16 + i3 / 4) ::
                  (i3 % 4 * 64 + i4) :: bs)
              | none => none
            | none => none
        | none => none
    | _, _ => none
  | [] => some []
  | _ => none

/-- Decode a standard Base64 string to its byte list, if well formed. -/
def base64Decode (s : String) : Option (List Nat) := base64DecodeList s.data

/-- Specification-side signer for the refinement claim C1, written from the
spec text: the HMAC key is the byte sequence formed by the decimal string
representation of the timestamp, a single newline byte, and the secret, in
that order; the HMAC-SHA256 digest of the zero-length message under that
key is emitted in standard Base64 with padding. -/
def signSpec (secret : String) (timestamp : Int) : String :=
  base64Encode (hmacSha256 (strBytes (toString timestamp) ++ 10 :: strBytes secret) [])

/-- Modelled from the spec: the write step of `GenSign` calls Go's
`hash.Hash.Write` on the HMAC wrapper of SHA-256, which is not part of
this repository; the spec states that HMAC-SHA256 construction cannot fail
for any string-valued key, so the write reports no error. -/
def hmacWriteErr (_msgW : List Nat) : Option String := none

/-- Error-carrying signer mirroring the `(string, error)` return of
`GenSign` in `sign.go`: a write error would be wrapped and returned with an
empty signature, and otherwise the Base64 digest is returned with no error. -/
def genSignE (secret : String) (timestamp : Int) : Except String String :=
  let stringToSign := toString timestamp ++ "\n" ++ secret
  match hmacWriteErr [] with
  | some e => .error ("failed to write to hmac: " ++ e)
  | none => .ok (base64Encode (hmacSha256 (strBytes stringToSign) []))

/-! ## Message payloads (`message.go`). Go's `map[string]any` values are
modelled by a small JSON value type; a Go map is a key-value list, the nil
map and the empty map both being the empty list except where the source
distinguishes them (pointer/nil-map checks, modelled with `Option`). -/

/-- JSON-serializable values appearing in message content and cards. -/
inductive Jval where
  | null : Jval
  | str : String → Jval
  | num : Int → Jval
  | obj : List (String × Jval) → Jval
  | arr : List Jval → Jval

/-- Element of a paragraph (`Element = map[string]any`). -/
def Element := List (String × Jval)

/-- Paragraph of a post message: an array of elements. -/
def Paragraph := List Element

/-- Plain text element. -/
def NewTextElement (text : String) : Element :=
  [("tag", .str "text"), ("text", .str text)]

/-- Hyperlink element. -/
def NewLinkElement (text href : String) : Element :=
  [("tag", .str "a"), ("text", .str text), ("href", .str href)]

/-- Mention element. -/
def NewAtElement (userID userName : String) : Element :=
  [("tag", .str "at"), ("user_id", .str userID), ("user_name", .str userName)]

/-- Image element inside a paragraph. -/
def NewImageElement (imageKey : String) : Element :=
  [("tag", .str "img"), ("image_key", .str imageKey)]

/-- Emoticon element. -/
def NewEmoticonElement (emojiKey : String) : Element :=
  [("tag", .str "emotion"), ("emoji_key", .str emojiKey)]

/-- Content of a rich text (post) message. -/
structure PostContent where
  title : String
  content : List Paragraph

/-- Post content for one language. -/
structure PostLanguageContent where
  language : String
  content : PostContent

/-- Paragraph from elements. -/
def NewParagraph (elements : List Element) : Paragraph := elements

/-- Post content from a title and paragraphs. -/
def NewPostContent (title : String) (paragraphs : List Paragraph) : PostContent :=
  ⟨title, paragraphs⟩

/-- Post content tagged with a language. -/
def NewPostLanguageContent (lang : String) (content : PostContent) : PostLanguageContent :=
  ⟨lang, content⟩

/-- Convert paragraphs to the nested-array JSON structure. -/
def convertParagraphs (paragraphs : List Paragraph) : Jval :=
  .arr (paragraphs.map fun p => .arr (p.map .obj))

/-- Message envelope: kind discriminator, kind-specific content, card,
and the optional signing fields, zero-valued until set. -/
structure Message where
  msgType : String
  content : List (String × Jval)
  card : List (String × Jval)
  timestamp : Int
  sign : String

/-- Text message constructor. -/
def NewTextMessage (text : String) : Message :=
  ⟨"text", [("text", .str text)], [], 0, ""⟩

/-- JSON object for one language version of a post. -/
def postLangJ (content : PostContent) : Jval :=
  .obj [("title", .str content.title), ("content", convertParagraphs content.content)]

/-- Post message constructor for a single language. -/
def NewPostMessage (lang : String) (content : PostContent) : Message :=
  ⟨"post", [("post", .obj [(lang, postLangJ content)])], [], 0, ""⟩

/-- Insert a key into a key-value list, replacing an existing binding, as
assignment into a Go map does. -/
def insertKV : List (String × Jval) → String → Jval → List (String × Jval)
  | [], k, v => [(k, v)]
  | (k0, v0) :: rest, k, v =>
      if k0 = k then (k, v) :: rest else (k0, v0) :: insertKV rest k v

/-- Post message constructor with several language versions. -/
def NewPostMessageMultiLanguage (langContents : List PostLanguageContent) : Message :=
  let pd := langContents.foldl (fun acc lc => insertKV acc lc.language (postLangJ lc.content)) []
  ⟨"post", [("post", .obj pd)], [], 0, ""⟩

/-- Image message constructor. -/
def NewImageMessage (imageKey : String) : Message :=
  ⟨"image", [("image_key", .str imageKey)], [], 0, ""⟩

/-- Share-chat message constructor. -/
def NewShareChatMessage (shareChatID : String) : Message :=
  ⟨"share_chat", [("share_chat_id", .str shareChatID)], [], 0, ""⟩

/-- Title element of a card (plain text or markdown). -/
structure CardTitle where
  tag : String
  content : String

/-- Plain text card title. -/
def NewCardTitle (content : String) : CardTitle := ⟨"plain_text", content⟩

/-- Markdown card title. -/
def NewCardMarkdownTitle (content : String) : CardTitle := ⟨"lark_md", content⟩

/-- Element of a card body (`CardElement = map[string]any`). -/
def CardElement := List (String × Jval)

/-- Markdown card element. -/
def NewMarkdownElement (content : String) : CardElement :=
  [("tag", .str "markdown"), ("content", .str content)]

/-- Div card element. -/
def NewDivElement (text : CardTitle) : CardElement :=
  [("tag", .str "div"), ("text", .obj [("tag", .str text.tag), ("content", .str text.content)])]

/-- Button card element. -/
def NewButtonElement (text buttonType url : String) : CardElement :=
  [("tag", .str "button"),
   ("text", .obj [("tag", .str "plain_text"), ("content", .str text)]),
   ("type", .str buttonType), ("url", .str url)]

/-- Body section of a card. -/
structure CardBody where
  direction : String
  padding : String
  elements : List CardElement

/-- Header section of a card; the title pointers may be nil. -/
structure CardHeader where
  title : Option CardTitle
  subtitle : Option CardTitle
  template : String
  uiElement : Option CardTitle

/-- Interactive card: schema and optional config, body and header, the
optional parts being nil maps or nil pointers when absent. -/
structure Card where
  schema : String
  config : Option (List (String × Jval))
  body : Option CardBody
  header : Option CardHeader

/-- Card with only a schema. -/
def NewCard (schema : String) : Card := ⟨schema, none, none, none⟩

/-- Replace the card config. -/
def Card.setConfig (c : Card) (config : List (String × Jval)) : Card :=
  { c with config := some config }

/-- Replace the card body. -/
def Card.setBody (c : Card) (body : CardBody) : Card := { c with body := some body }

/-- Replace the card header. -/
def Card.setHeader (c : Card) (header : CardHeader) : Card := { c with header := some header }

/-- JSON value of a card title. -/
def cardTitleJ : Option CardTitle → Jval
  | some t => .obj [("tag", .str t.tag), ("content", .str t.content)]
  | none => .null

/-- JSON value of a card body, with its omit-empty string fields. -/
def cardBodyJ (b : CardBody) : Jval :=
  .obj ((if b.direction = "" then [] else [("direction", Jval.str b.direction)]) ++
        (if b.padding = "" then [] else [("padding", Jval.str b.padding)]) ++
        [("elements", Jval.arr (b.elements.map Jval.obj))])

/-- JSON value of a card header: the title key is always present, the
optional parts only when set. -/
def cardHeaderJ (hd : CardHeader) : Jval :=
  .obj ([("title", cardTitleJ hd.title)] ++
        (match hd.subtitle with
         | some st => [("subtitle", cardTitleJ (some st))]
         | none => []) ++
        (if hd.template = "" then [] else [("template", Jval.str hd.template)]) ++
        (match hd.uiElement with
         | some ue => [("ui_element", cardTitleJ (some ue))]
         | none => []))

/-- Map view of a card for serialization: always the schema, then config,
body and header when they are non-nil. -/
def Card.toMap (c : Card) : List (String × Jval) :=
  [("schema", Jval.str c.schema)] ++
  (match c.config with | some cfg => [("config", Jval.obj cfg)] | none => []) ++
  (match c.body with | some b => [("body", cardBodyJ b)] | none => []) ++
  (match c.header with | some hd => [("header", cardHeaderJ hd)] | none => [])

/-- Interactive message constructor from a structured card. -/
def NewInteractiveMessage (card : Card) : Message :=
  ⟨"interactive", [], card.toMap, 0, ""⟩

/-- Interactive message constructor from a raw card map. -/
def NewInteractiveMessageFromMap (card : List (String × Jval)) : Message :=
  ⟨"interactive", [], card, 0, ""⟩

/-! ## The delivery client (`client.go`). -/

/-- Response of the webhook endpoint, as parsed from the body. -/
structure Response where
  code : Int
  msg : String
  data : Jval
  statusCode : Int
  statusMessage : String

/-- Typed failures of `Send`, one per exit path of the source. -/
inductive SendError where
  | signing (e : String)
  | transport (e : String)
  | readBody (e : String)
  | decodeFailure
  | api (code : Int) (msg : String)

/-- Serialized form of an envelope: the JSON object fields in struct-tag
order, `omitempty` dropping empty content, card and sign and zero
timestamps. -/
def marshalMessage (m : Message) : List (String × Jval) :=
  [("msg_type", Jval.str m.msgType)] ++
  (if m.content.isEmpty then [] else [("content", Jval.obj m.content)]) ++
  (if m.card.isEmpty then [] else [("card", Jval.obj m.card)]) ++
  (if m.timestamp = 0 then [] else [("timestamp", Jval.num m.timestamp)]) ++
  (if m.sign = "" then [] else [("sign", Jval.str m.sign)])

/-- Keys present on the serialized envelope. -/
def jsonKeys (m : Message) : List String := (marshalMessage m).map Prod.fst

/-- Result of one call to the injected transport: a transport error, or an
HTTP response with a status code and the outcome of reading its body. -/
inductive TransportResult where
  | err (e : String)
  | ok (status : Nat) (body : Except String String)

/-- Result of `Send`: the parsed response if any, the error if any, and
the caller's message as it stands after the call (the source duplicates it
and never writes through the caller's pointer). -/
structure SendOutcome where
  resp : Option Response
  fail : Option SendError
  callerMsg : Message

/-- Signing step of `Send`: with an empty secret the duplicate is left
untouched; otherwise the signer runs at the current timestamp and its
signature and timestamp are set on the duplicate. -/
def signEnvelope (secret : String) (now : Int) (m : Message) : Except String Message :=
  if secret = "" then .ok m
  else
    match genSignE secret now with
    | .error e => .error e
    | .ok sg => .ok { m with timestamp := now, sign := sg }

/-- Delivery operation of `client.go`: duplicate and optionally sign the
caller's message, serialize it, dispatch it through the transport, read
the body, parse it with the injected decoder (modelling `json.Unmarshal`
into the `Response` shape), and classify the parsed code. -/
def send (secret : String) (now : Int) (unmarshal : String → Option Response)
    (transport : List (String × Jval) → TransportResult) (msg : Message) : SendOutcome :=
  match signEnvelope secret now msg with
  | .error e => ⟨none, some (.signing e), msg⟩
  | .ok m =>
    match transport (marshalMessage m) with
    | .err e => ⟨none, some (.transport e), msg⟩
    | .ok _status bodyRead =>
      match bodyRead with
      | .error e => ⟨none, some (.readBody e), msg⟩
      | .ok body =>
        match unmarshal body with
        | none => ⟨none, some .decodeFailure, msg⟩
        | some r =>
          if r.code ≠ 0 then ⟨some r, some (.api r.code r.msg), msg⟩
          else ⟨some r, none, msg⟩


/-! ## Values supporting the claim statements. -/

/-- Content present and card absent on an envelope. -/
def contentOnly (m : Message) : Bool := !m.content.isEmpty && m.card.isEmpty

/-- Card present and content absent on an envelope. -/
def cardOnly (m : Message) : Bool := m.content.isEmpty && !m.card.isEmpty

/-- Two transport results agreeing on everything but the HTTP status. -/
def sameBodyResult : TransportResult → TransportResult → Prop
  | .err e1, .err e2 => e1 = e2
  | .ok _ r1, .ok _ r2 => r1 = r2
  | _, _ => False

/-- Caller message that already carries a timestamp but no signature. -/
def c2CexMsg : Message := ⟨"text", [("text", Jval.str "hi")], [], 1, ""⟩

/-- Response of the failure example of the spec. -/
def c3Resp : Response := ⟨19024, "Key Words Not Found", .null, 0, ""⟩

/-- Decoder accepting exactly one concrete body. -/
def c3Decoder : String → Option Response :=
  fun b => if b = "fail-body" then some c3Resp else none

/-- Success response with code zero. -/
def c10Resp : Response := ⟨0, "success", .null, 0, ""⟩

/-! ## Lemmas for the signer claims. -/

/-- Decoding inverts the alphabet on every 6-bit value. -/
theorem b64DecodeChar_b64Char : ∀ i, i < 64 → b64DecodeChar (b64Char i) = some i := by
  decide

/-- Alphabet characters are never the padding character. -/
theorem b64Char_ne_pad : ∀ i, i < 64 → b64Char i ≠ '=' := by
  decide

/-- Decoding undoes encoding on any list of genuine bytes. -/
theorem base64_roundtrip (bs : List Nat) (hb : ∀ b ∈ bs, b < 256) :
    base64DecodeList (base64EncodeList bs) = some bs := by
  induction bs using base64EncodeList.induct with
  | case1 b1 b2 b3 rest ih =>
    have h1 : b1 < 256 := hb b1 (by simp)
    have h2 : b2 < 256 := hb b2 (by simp)
    have h3 : b3 < 256 := hb b3 (by simp)
    have ih2 := ih (fun b hbm => hb b (by simp [hbm]))
    have d1 : b64DecodeChar (b64Char (b1 / 4)) = some (b1 / 4) :=
      b64DecodeChar_b64Char _ (by omega)
    have d2 : b64DecodeChar (b64Char (b1 % 4 * 16 + b2 / 16)) = some (b1 % 4 * 16 + b2 / 16) :=
      b64DecodeChar_b64Char _ (by omega)
    have d3 : b64DecodeChar (b64Char (b2 % 16 * 4 + b3 / 64)) = some (b2 % 16 * 4 + b3 / 64) :=
      b64DecodeChar_b64Char _ (by omega)
    have d4 : b64DecodeChar (b64Char (b3 % 64)) = some (b3 % 64) :=
      b64DecodeChar_b64Char _ (by omega)
    have ne3 : b64Char (b2 % 16 * 4 + b3 / 64) ≠ '=' := b64Char_ne_pad _ (by omega)
    have ne4 : b64Char (b3 % 64) ≠ '=' := b64Char_ne_pad _ (by omega)
    have e1 : b1 / 4 * 4 + (b1 % 4 * 16 + b2 / 16) / 16 = b1 := by omega
    have e2 : (b1 % 4 * 16 + b2 / 16) % 16 * 16 + (b2 % 16 * 4 + b3 / 64) / 4 = b2 := by omega
    have e3 : (b2 % 16 * 4 + b3 / 64) % 4 * 64 + b3 % 64 = b3 := by omega
    simp only [base64EncodeList, base64DecodeList, d1, d2, d3, d4, if_neg ne3, if_neg ne4,
      ih2, e1, e2, e3]
  | case2 b1 b2 =>
    have h1 : b1 < 256 := hb b1 (by simp)
    have h2 : b2 < 256 := hb b2 (by simp)
    have d1 : b64DecodeChar (b64Char (b1 / 4)) = some (b1 / 4) :=
      b64DecodeChar_b64Char _ (by omega)
    have d2 : b64DecodeChar (b64Char (b1 % 4 * 16 + b2 / 16)) = some (b1 % 4 * 16 + b2 / 16) :=
      b64DecodeChar_b64Char _ (by omega)
    have d3 : b64DecodeChar (b64Char (b2 % 16 * 4)) = some (b2 % 16 * 4) :=
      b64DecodeChar_b64Char _ (by omega)
    have ne3 : b64Char (b2 % 16 * 4) ≠ '=' := b64Char_ne_pad _ (by omega)
    have e1 : b1 / 4 * 4 + (b1 % 4 * 16 + b2 / 16) / 16 = b1 := by omega
    have e2 : (b1 % 4 * 16 + b2 / 16) % 16 * 16 + (b2 % 16 * 4) / 4 = b2 := by omega
    simp only [base64EncodeList, base64DecodeList, d1, d2, d3, if_neg ne3, e1, e2]
    simp
  | case3 b1 =>
    have h1 : b1 < 256 := hb b1 (by simp)
    have d1 : b64DecodeChar (b64Char (b1 / 4)) = some (b1 / 4) :=
      b64DecodeChar_b64Char _ (by omega)
    have d2 : b64DecodeChar (b64Char (b1 % 4 * 16)) = some (b1 % 4 * 16) :=
      b64DecodeChar_b64Char _ (by omega)
    have e1 : b1 / 4 * 4 + (b1 % 4 * 16) / 16 = b1 := by omega
    simp only [base64EncodeList, base64DecodeList, d1, d2, e1]
    simp
  | case4 => simp [base64EncodeList, base64DecodeList]

/-- Each serialized word byte is a genuine byte. -/
theorem wordBytes_lt (n : Nat) : ∀ b ∈ wordBytes n, b < 256 := by
  intro b hb
  simp [wordBytes] at hb
  rcases hb with rfl | rfl | rfl | rfl <;> exact Nat.mod_lt _ (by omega)

/-- Every SHA-256 digest has exactly 32 bytes. -/
theorem sha256_length (msg : List Nat) : (sha256 msg).length = 32 := by
  simp [sha256, digestBytes, wordBytes]

/-- Every SHA-256 digest byte is a genuine byte. -/
theorem sha256_mem_lt (msg : List Nat) : ∀ b ∈ sha256 msg, b < 256 := by
  intro b hb
  simp only [sha256, digestBytes, List.mem_append] at hb
  rcases hb with (((((((h | h) | h) | h) | h) | h) | h) | h) <;> exact wordBytes_lt _ _ h

/-- Length of a Base64 encoding: four characters per started 3-byte group. -/
theorem base64EncodeList_length (bs : List Nat) :
    (base64EncodeList bs).length = 4 * ((bs.length + 2) / 3) := by
  induction bs using base64EncodeList.induct <;> simp [base64EncodeList] <;> omega

/-- Every generated signature has exactly 44 characters. -/
theorem genSign_length (secret : String) (ts : Int) : (genSign secret ts).length = 44 := by
  show (base64EncodeList (hmacSha256 (strBytes (toString ts ++ "\n" ++ secret)) [])).length = 44
  rw [base64EncodeList_length]
  have h32 : (hmacSha256 (strBytes (toString ts ++ "\n" ++ secret)) []).length = 32 :=
    sha256_length _
  rw [h32]

/-- UTF-8 bytes of a concatenation are the concatenated UTF-8 bytes. -/
theorem strBytes_append (a b : String) : strBytes (a ++ b) = strBytes a ++ strBytes b := by
  simp [strBytes]

/-! ## The signer claims. -/

/-- Claim C1: for every secret and timestamp, `GenSign` returns the
standard Base64 encoding of the HMAC-SHA256 digest of the empty message
under the key decimal-timestamp, newline, secret — the source signer
coincides with the spec-side signer everywhere. -/
theorem c1_genSign_matches_spec :
    ∀ (secret : String) (ts : Int), genSign secret ts = signSpec secret ts := by
  intro s t
  have h10 : strBytes "\n" = [10] := by decide
  have hkey : strBytes (toString t ++ "\n" ++ s) =
      strBytes (toString t) ++ 10 :: strBytes s := by
    rw [strBytes_append, strBytes_append, h10]
    simp
  simp only [genSign, signSpec]
  rw [hkey]

/-- Claim C4: for every secret and timestamp, `GenSign` returns a signature
with a nil error — its error branch is unreachable. -/
theorem c4_genSign_error_branch_unreachable :
    ∀ (secret : String) (ts : Int), genSignE secret ts = .ok (genSign secret ts) := by
  intro s t
  rfl

/-- Claim C7: every generated signature is exactly 44 standard Base64
characters and decodes from Base64 to exactly 32 bytes; in particular this
holds of the signature for secret `demo` at timestamp 1599360473. -/
theorem c7_signature_shape :
    (∀ (secret : String) (ts : Int),
      (genSign secret ts).length = 44 ∧
      ∃ bs, base64Decode (genSign secret ts) = some bs ∧ bs.length = 32) ∧
    (∃ bs, base64Decode (genSign "demo" 1599360473) = some bs ∧ bs.length = 32) := by
  have hall : ∀ (secret : String) (ts : Int),
      (genSign secret ts).length = 44 ∧
      ∃ bs, base64Decode (genSign secret ts) = some bs ∧ bs.length = 32 := by
    intro secret ts
    refine ⟨genSign_length secret ts,
      hmacSha256 (strBytes (toString ts ++ "\n" ++ secret)) [], ?_, sha256_length _⟩
    show base64DecodeList (base64EncodeList
      (hmacSha256 (strBytes (toString ts ++ "\n" ++ secret)) [])) = _
    exact base64_roundtrip _ (sha256_mem_lt _)
  exact ⟨hall, (hall "demo" 1599360473).2⟩

/-- Claim C9: the signer is a deterministic pure function of its two
inputs — any two calls on equal inputs yield identical output. -/
theorem c9_genSign_deterministic :
    ∀ (s1 s2 : String) (t1 t2 : Int), s1 = s2 → t1 = t2 → genSign s1 t1 = genSign s2 t2 := by
  intro s1 s2 t1 t2 hs ht
  rw [hs, ht]

/-- Witness for C9 at a concrete input. -/
theorem c9_genSign_deterministic_witness :
    genSign "demo" 1599360473 = genSign "demo" 1599360473 :=
  c9_genSign_deterministic "demo" "demo" 1599360473 1599360473 rfl rfl


/-! ## Lemmas for the delivery-client claims. -/

/-- Signer with the error plumbing always succeeds with the plain signature. -/
theorem genSignE_eq (s : String) (t : Int) : genSignE s t = .ok (genSign s t) := rfl

/-- Signing step resolved: it never fails, leaves the envelope alone under
an empty secret, and otherwise stamps timestamp and signature. -/
theorem signEnvelope_eq (secret : String) (now : Int) (m : Message) :
    signEnvelope secret now m =
      .ok (if secret = "" then m
           else { m with timestamp := now, sign := genSign secret now }) := by
  by_cases h : secret = "" <;> simp [signEnvelope, genSignE_eq, h]

/-- Signatures are never the empty string (they have 44 characters). -/
theorem genSign_ne_empty (s : String) (t : Int) : genSign s t ≠ "" := by
  intro h
  have h44 := genSign_length s t
  rw [h] at h44
  simp at h44

/-- The timestamp key is serialized exactly when the timestamp is nonzero. -/
theorem mem_jsonKeys_timestamp (m : Message) :
    "timestamp" ∈ jsonKeys m ↔ m.timestamp ≠ 0 := by
  by_cases hc : m.content.isEmpty <;> by_cases hk : m.card.isEmpty <;>
    by_cases ht : m.timestamp = 0 <;> by_cases hs : m.sign = "" <;>
    simp [jsonKeys, marshalMessage, hc, hk, ht, hs]

/-- The sign key is serialized exactly when the signature is nonempty. -/
theorem mem_jsonKeys_sign (m : Message) :
    "sign" ∈ jsonKeys m ↔ m.sign ≠ "" := by
  by_cases hc : m.content.isEmpty <;> by_cases hk : m.card.isEmpty <;>
    by_cases ht : m.timestamp = 0 <;> by_cases hs : m.sign = "" <;>
    simp [jsonKeys, marshalMessage, hc, hk, ht, hs]

/-- On every exit path of `send`, the caller message comes back as given. -/
theorem send_callerMsg (secret : String) (now : Int) (u : String → Option Response)
    (t : List (String × Jval) → TransportResult) (msg : Message) :
    (send secret now u t msg).callerMsg = msg := by
  unfold send
  split
  · rfl
  · split
    · rfl
    · split
      · rfl
      · split
        · rfl
        · split <;> rfl

/-! ## The delivery-client claims. -/

/-- Counterexample to claim C2 as stated: under an empty secret, a caller
message that already carries a nonzero timestamp and no signature is
serialized with its timestamp key populated and its sign key absent, so
the outbound envelope has one of the pair without the other. -/
theorem c2_counterexample :
    send "" 5 (fun _ => none)
        (fun body => .err (if "timestamp" ∈ body.map Prod.fst then "timestamp-populated"
                           else "clean"))
        c2CexMsg =
      ⟨none, some (.transport "timestamp-populated"), c2CexMsg⟩ ∧
    "sign" ∉ jsonKeys c2CexMsg := by
  constructor
  · simp [send, signEnvelope_eq, c2CexMsg, marshalMessage]
  · decide

/-- Claim C2 (amended): with an empty secret `Send` adds nothing to the
envelope — the outbound envelope is the caller's message, so timestamp and
sign are absent whenever the caller left them zero-valued; with a nonempty
secret (and a nonzero clock) both are populated on the outbound envelope,
the signature being `GenSign` of the secret at that exact timestamp. -/
theorem c2_signing_fields_amended :
    ∀ (secret : String) (now : Int) (msg : Message),
      (secret = "" → signEnvelope secret now msg = .ok msg) ∧
      (secret = "" → msg.timestamp = 0 → msg.sign = "" →
        "timestamp" ∉ jsonKeys msg ∧ "sign" ∉ jsonKeys msg) ∧
      (secret ≠ "" → now ≠ 0 →
        signEnvelope secret now msg =
          .ok { msg with timestamp := now, sign := genSign secret now } ∧
        "timestamp" ∈ jsonKeys { msg with timestamp := now, sign := genSign secret now } ∧
        "sign" ∈ jsonKeys { msg with timestamp := now, sign := genSign secret now }) := by
  intro secret now msg
  refine ⟨fun h => by simp [signEnvelope_eq, h],
          fun h ht hs => ⟨by simp [mem_jsonKeys_timestamp, ht], by simp [mem_jsonKeys_sign, hs]⟩,
          fun h hn => ⟨by simp [signEnvelope_eq, h], ?_, ?_⟩⟩
  · rw [mem_jsonKeys_timestamp]
    simpa using hn
  · rw [mem_jsonKeys_sign]
    simpa using genSign_ne_empty secret now

/-- Witness for the amended C2 at concrete inputs. -/
theorem c2_signing_fields_amended_witness :
    (signEnvelope "" 7 (NewTextMessage "hi") = .ok (NewTextMessage "hi")) ∧
    ("timestamp" ∉ jsonKeys (NewTextMessage "hi") ∧ "sign" ∉ jsonKeys (NewTextMessage "hi")) ∧
    (signEnvelope "sec" 7 (NewTextMessage "hi") =
        .ok { NewTextMessage "hi" with timestamp := 7, sign := genSign "sec" 7 } ∧
      "timestamp" ∈ jsonKeys { NewTextMessage "hi" with timestamp := 7, sign := genSign "sec" 7 } ∧
      "sign" ∈ jsonKeys { NewTextMessage "hi" with timestamp := 7, sign := genSign "sec" 7 }) :=
  ⟨(c2_signing_fields_amended "" 7 (NewTextMessage "hi")).1 rfl,
   (c2_signing_fields_amended "" 7 (NewTextMessage "hi")).2.1 rfl (by decide) rfl,
   (c2_signing_fields_amended "sec" 7 (NewTextMessage "hi")).2.2 (by decide) (by decide)⟩

/-- Claim C3: when the response body parses to a code other than zero,
`Send` returns both the parsed response and an error carrying that code
and message; when it parses to code zero, `Send` returns the parsed
response with no error. -/
theorem c3_parsed_code_dual_return :
    ∀ (secret : String) (now : Int) (u : String → Option Response) (msg : Message)
      (status : Nat) (body : String) (r : Response),
      u body = some r →
      ((r.code ≠ 0 → send secret now u (fun _ => .ok status (.ok body)) msg =
          ⟨some r, some (.api r.code r.msg), msg⟩) ∧
       (r.code = 0 → send secret now u (fun _ => .ok status (.ok body)) msg =
          ⟨some r, none, msg⟩)) := by
  intro secret now u msg status body r hu
  constructor <;> intro hc <;> simp [send, signEnvelope_eq, hu, hc]

/-- Witness for C3: the spec failure example with code 19024. -/
theorem c3_parsed_code_dual_return_witness :
    send "" 0 c3Decoder (fun _ => .ok 200 (.ok "fail-body")) (NewTextMessage "hi") =
      ⟨some c3Resp, some (.api 19024 "Key Words Not Found"), NewTextMessage "hi"⟩ :=
  (c3_parsed_code_dual_return "" 0 c3Decoder (NewTextMessage "hi") 200 "fail-body" c3Resp
    (by simp [c3Decoder])).1 (by decide)

/-- Claim C5: a transport error makes `Send` abort at once with a
transport failure and no response — the outcome does not depend on the
decoder, so no parsing occurs; an unparseable body makes `Send` abort with
a decode failure and no response, the raw body discarded. -/
theorem c5_transport_and_decode_failures :
    ∀ (secret : String) (now : Int) (u1 u2 : String → Option Response) (msg : Message)
      (e : String) (status : Nat) (body : String),
      (send secret now u1 (fun _ => .err e) msg = ⟨none, some (.transport e), msg⟩) ∧
      (send secret now u1 (fun _ => .err e) msg = send secret now u2 (fun _ => .err e) msg) ∧
      (u1 body = none →
        send secret now u1 (fun _ => .ok status (.ok body)) msg =
          ⟨none, some .decodeFailure, msg⟩) := by
  intro secret now u1 u2 msg e status body
  refine ⟨by simp [send, signEnvelope_eq], by simp [send, signEnvelope_eq], fun hu => ?_⟩
  simp [send, signEnvelope_eq, hu]

/-- Witness for C5 at concrete inputs. -/
theorem c5_transport_and_decode_failures_witness :
    (send "" 0 (fun _ => none) (fun _ => .err "boom") (NewTextMessage "hi") =
       ⟨none, some (.transport "boom"), NewTextMessage "hi"⟩) ∧
    (send "" 0 (fun _ => none) (fun _ => .ok 200 (.ok "nonsense")) (NewTextMessage "hi") =
       ⟨none, some .decodeFailure, NewTextMessage "hi"⟩) := by
  have h := c5_transport_and_decode_failures "" 0 (fun _ => none) (fun _ => none)
    (NewTextMessage "hi") "boom" 200 "nonsense"
  exact ⟨h.1, h.2.2 rfl⟩

/-- Claim C6: every field of the caller's message — kind, content, card,
timestamp and sign — is unchanged after `Send` returns, under any outcome:
the signing fields are added only onto the duplicate. -/
theorem c6_caller_envelope_unchanged :
    ∀ (secret : String) (now : Int) (u : String → Option Response)
      (t : List (String × Jval) → TransportResult) (msg : Message),
      (send secret now u t msg).callerMsg.msgType = msg.msgType ∧
      (send secret now u t msg).callerMsg.content = msg.content ∧
      (send secret now u t msg).callerMsg.card = msg.card ∧
      (send secret now u t msg).callerMsg.timestamp = msg.timestamp ∧
      (send secret now u t msg).callerMsg.sign = msg.sign ∧
      (send secret now u t msg).callerMsg = msg := by
  intro secret now u t msg
  have h := send_callerMsg secret now u t msg
  simp [h]

/-- Counterexample to claim C8 as stated: the raw-map interactive
constructor applied to an empty map yields a message of interactive kind
with neither content nor card populated. -/
theorem c8_counterexample :
    (NewInteractiveMessageFromMap []).msgType = "interactive" ∧
    cardOnly (NewInteractiveMessageFromMap []) = false ∧
    contentOnly (NewInteractiveMessageFromMap []) = false :=
  ⟨rfl, rfl, rfl⟩

/-- Claim C8 (amended): every constructor yields the corresponding kind;
the text, post, image and share-chat constructors populate content and
leave the card absent, the structured interactive constructor populates
the card and leaves content absent, and the raw-map interactive
constructor does so provided the supplied map is nonempty. -/
theorem c8_constructors_amended :
    (∀ text, (NewTextMessage text).msgType = "text" ∧
       contentOnly (NewTextMessage text) = true) ∧
    (∀ lang content, (NewPostMessage lang content).msgType = "post" ∧
       contentOnly (NewPostMessage lang content) = true) ∧
    (∀ lcs, (NewPostMessageMultiLanguage lcs).msgType = "post" ∧
       contentOnly (NewPostMessageMultiLanguage lcs) = true) ∧
    (∀ key, (NewImageMessage key).msgType = "image" ∧
       contentOnly (NewImageMessage key) = true) ∧
    (∀ cid, (NewShareChatMessage cid).msgType = "share_chat" ∧
       contentOnly (NewShareChatMessage cid) = true) ∧
    (∀ card, (NewInteractiveMessage card).msgType = "interactive" ∧
       cardOnly (NewInteractiveMessage card) = true) ∧
    (∀ cm, cm ≠ ([] : List (String × Jval)) →
       (NewInteractiveMessageFromMap cm).msgType = "interactive" ∧
       cardOnly (NewInteractiveMessageFromMap cm) = true) := by
  refine ⟨fun _ => ⟨rfl, rfl⟩, fun _ _ => ⟨rfl, rfl⟩, fun _ => ⟨rfl, rfl⟩,
    fun _ => ⟨rfl, rfl⟩, fun _ => ⟨rfl, rfl⟩, fun c => ⟨rfl, rfl⟩, fun cm hcm => ⟨rfl, ?_⟩⟩
  cases cm with
  | nil => exact absurd rfl hcm
  | cons p rest => rfl

/-- Witness for the amended C8 at a concrete nonempty raw card map. -/
theorem c8_constructors_amended_witness :
    (NewInteractiveMessageFromMap [("schema", Jval.str "2.0")]).msgType = "interactive" ∧
    cardOnly (NewInteractiveMessageFromMap [("schema", Jval.str "2.0")]) = true :=
  c8_constructors_amended.2.2.2.2.2.2 [("schema", Jval.str "2.0")] (by simp)

/-- Claim C10: `Send` never inspects the HTTP status code — two transports
agreeing on everything but the status yield identical outcomes, and a body
parsing to code zero yields a success with no error whatever the status. -/
theorem c10_http_status_ignored :
    (∀ (secret : String) (now : Int) (u : String → Option Response) (msg : Message)
       (t1 t2 : List (String × Jval) → TransportResult),
       (∀ b, sameBodyResult (t1 b) (t2 b)) →
       send secret now u t1 msg = send secret now u t2 msg) ∧
    (∀ (secret : String) (now : Int) (u : String → Option Response) (msg : Message)
       (status : Nat) (body : String) (r : Response),
       u body = some r → r.code = 0 →
       send secret now u (fun _ => .ok status (.ok body)) msg = ⟨some r, none, msg⟩) := by
  constructor
  · intro secret now u msg t1 t2 hsame
    simp only [send, signEnvelope_eq]
    set m := (if secret = "" then msg
              else { msg with timestamp := now, sign := genSign secret now }) with hm
    have hb := hsame (marshalMessage m)
    cases h1 : t1 (marshalMessage m) <;> cases h2 : t2 (marshalMessage m) <;>
      rw [h1, h2] at hb <;> simp [sameBodyResult] at hb <;> simp [hb]
  · intro secret now u msg status body r hu hc
    simp [send, signEnvelope_eq, hu, hc]

/-- Witness for C10: statuses 200 and 500 give the same outcome, and a
code-zero body succeeds under status 500. -/
theorem c10_http_status_ignored_witness :
    (send "" 0 (fun _ => none) (fun _ => .ok 200 (.ok "x")) (NewTextMessage "hi") =
     send "" 0 (fun _ => none) (fun _ => .ok 500 (.ok "x")) (NewTextMessage "hi")) ∧
    (send "" 0 (fun _ => some c10Resp) (fun _ => .ok 500 (.ok "ok-body")) (NewTextMessage "hi") =
       ⟨some c10Resp, none, NewTextMessage "hi"⟩) :=
  ⟨c10_http_status_ignored.1 "" 0 (fun _ => none) (NewTextMessage "hi")
     (fun _ => .ok 200 (.ok "x")) (fun _ => .ok 500 (.ok "x")) (fun _ => rfl),
   c10_http_status_ignored.2 "" 0 (fun _ => some c10Resp) (NewTextMessage "hi") 500 "ok-body"
     c10Resp rfl rfl⟩

end FeishuBot
